import Mathlib

/-!
Verification development for the property-details service
(repository ssh-keyz/property-details).

The Go sources are shallowly embedded below.  Strings are modelled as
Lean strings / lists of characters, float64 values either as rationals
(where only comparisons and exact arithmetic occur) or as real numbers
(for the trigonometric distance computation).  Upstream HTTP calls are
modelled by passing the outcome of the call (transport error, status
code, decoded body) as an explicit argument.
-/

namespace PropertyDetails

/-! ## Go string helpers -/

/-- Characters trimmed by Go strings.TrimSpace (unicode.IsSpace), by code
point: tab, newline, vertical tab, form feed, carriage return, space, and
the Unicode space characters. -/
def isGoSpace (c : Char) : Bool :=
  c.toNat = 32 || c.toNat = 9 || c.toNat = 10 || c.toNat = 11 || c.toNat = 12 ||
  c.toNat = 13 || c.toNat = 0x85 || c.toNat = 0xA0 || c.toNat = 0x1680 ||
  (0x2000 ≤ c.toNat && c.toNat ≤ 0x200A) || c.toNat = 0x2028 ||
  c.toNat = 0x2029 || c.toNat = 0x202F || c.toNat = 0x205F || c.toNat = 0x3000

/-- Model of Go strings.TrimSpace on the character list of a string. -/
def trimSpace (s : List Char) : List Char :=
  ((s.dropWhile isGoSpace).reverse.dropWhile isGoSpace).reverse

/-- Model of Go strings.Split(s, ",") : the list of comma-separated segments. -/
def splitComma : List Char → List (List Char)
  | [] => [[]]
  | c :: rest =>
    match splitComma rest with
    | [] => [[]]
    | p :: ps => if c = ',' then [] :: p :: ps else (c :: p) :: ps

/-! ## A small matcher for the address regular expression

The validation regular expression
is a plain concatenation of character classes, each repeated once or
under a star; we represent it as a list of such atoms and match with
backtracking. -/

inductive AtomKind where
  | once
  | star
  deriving Repr, DecidableEq

structure Atom where
  cls : Char → Bool
  kind : AtomKind

/-- Can the atom sequence match the empty string? -/
def nullableA (atoms : List Atom) : Bool :=
  atoms.all (fun a => a.kind = AtomKind.star)

/-- One-character derivative of an atom sequence: the possible residual
atom sequences after consuming the character. -/
def derivA : List Atom → Char → List (List Atom)
  | [], _ => []
  | ⟨cls, .once⟩ :: rest, c => if cls c then [rest] else []
  | ⟨cls, .star⟩ :: rest, c =>
    (if cls c then [⟨cls, .star⟩ :: rest] else []) ++ derivA rest c

/-- Run the derivative automaton over the string from a set of states. -/
def matchStates : List (List Atom) → List Char → Bool
  | states, [] => states.any nullableA
  | states, c :: s => matchStates ((states.map (fun st => derivA st c)).flatten) s

/-- Does the whole string match the atom sequence? -/
def matchFrom (atoms : List Atom) (s : List Char) : Bool :=
  matchStates [atoms] s

/-- RE2 class backslash-d, the ASCII digits (code points 48 to 57). -/
def isDigitCh (c : Char) : Bool := 48 ≤ c.toNat && c.toNat ≤ 57

/-- RE2 class backslash-s: tab, newline, form feed, carriage return,
space (code points 9, 10, 12, 13, 32). -/
def isRESpace (c : Char) : Bool :=
  c.toNat = 9 || c.toNat = 10 || c.toNat = 12 || c.toNat = 13 || c.toNat = 32

/-- Class A-Z (code points 65 to 90). -/
def isUpperCh (c : Char) : Bool := 65 ≤ c.toNat && c.toNat ≤ 90

/-- Class a-z (code points 97 to 122). -/
def isLowerCh (c : Char) : Bool := 97 ≤ c.toNat && c.toNat ≤ 122

def isAlphaCh (c : Char) : Bool := isUpperCh c || isLowerCh c

/-- Character class [A-Za-z0-9 backslash-s . -] of the street component
(period is code point 46, hyphen 45). -/
def isStreetCh (c : Char) : Bool :=
  isAlphaCh c || isDigitCh c || isRESpace c || c.toNat = 46 || c.toNat = 45

/-- Character class [A-Za-z backslash-s] of the city component. -/
def isCityCh (c : Char) : Bool := isAlphaCh c || isRESpace c

/-- List of atoms in a plus position (one or more). -/
def plusA (cls : Char → Bool) : List Atom := [⟨cls, .once⟩, ⟨cls, .star⟩]

/-- Single mandatory character. -/
def onceA (cls : Char → Bool) : List Atom := [⟨cls, .once⟩]

/-- Star: zero or more characters of the class. -/
def starA (cls : Char → Bool) : List Atom := [⟨cls, .star⟩]

/-- Atom sequence of the Go validation regular expression.  Note that in
RE2 a question mark directly after a counted repetition only makes the
repetition non-greedy, so the trailing five-digit group is mandatory. -/
def addressPattern : List Atom :=
  plusA isDigitCh ++ plusA isRESpace ++ plusA isStreetCh ++
  onceA (fun c => c = ',') ++ starA isRESpace ++ plusA isCityCh ++
  onceA (fun c => c = ',') ++ starA isRESpace ++
  onceA isUpperCh ++ onceA isUpperCh ++ starA isRESpace ++
  onceA isDigitCh ++ onceA isDigitCh ++ onceA isDigitCh ++
  onceA isDigitCh ++ onceA isDigitCh

instance exceptDecEq {ε α : Type} [DecidableEq ε] [DecidableEq α] :
    DecidableEq (Except ε α) := fun x y =>
  match x, y with
  | .ok a, .ok b =>
    if h : a = b then .isTrue (by rw [h]) else .isFalse (by simp [h])
  | .error e, .error f =>
    if h : e = f then .isTrue (by rw [h]) else .isFalse (by simp [h])
  | .ok _, .error _ => .isFalse (by simp)
  | .error _, .ok _ => .isFalse (by simp)

/-- Embedding of (service) ValidateAddress from property/types.go (the same
function appears in main.go). -/
def ValidateAddress (address : String) : Except String Unit :=
  if trimSpace address.data = [] then .error "address cannot be empty"
  else if (splitComma address.data).length < 3 then
    .error "address must include street, city, and state"
  else if !matchFrom addressPattern (trimSpace address.data) then
    .error "invalid address format"
  else .ok ()

example : ValidateAddress "123 Main St, Springfield, IL 62701" = .ok () := by decide
example : ValidateAddress "123 Main St, Springfield, IL" =
    .error "invalid address format" := by decide
example : ValidateAddress "" = .error "address cannot be empty" := by decide
example : ValidateAddress "123 Main St" =
    .error "address must include street, city, and state" := by decide
example : ValidateAddress "123 Main St. #4B, Springfield, IL 62701" =
    .error "invalid address format" := by decide

/-! ### Lemmas about the matcher, trimming and splitting -/

theorem matchStates_iff (s : List Char) :
    ∀ states : List (List Atom),
      matchStates states s = true ↔
        ∃ st ∈ states, matchStates [st] s = true := by
  induction s with
  | nil =>
    intro states
    simp [matchStates, List.any_eq_true]
  | cons c s ih =>
    intro states
    have hsingle : ∀ st : List Atom,
        matchStates [st] (c :: s) = true ↔
          ∃ st2 ∈ derivA st c, matchStates [st2] s = true := by
      intro st
      show matchStates (([st].map (fun t => derivA t c)).flatten) s = true ↔ _
      rw [ih]
      simp
    constructor
    · intro h
      rw [show matchStates states (c :: s) =
            matchStates ((states.map (fun t => derivA t c)).flatten) s from rfl,
        ih] at h
      obtain ⟨st2, hmem, hm⟩ := h
      simp only [List.mem_flatten, List.mem_map] at hmem
      obtain ⟨_, ⟨st, hst, rfl⟩, hst2⟩ := hmem
      exact ⟨st, hst, (hsingle st).2 ⟨st2, hst2, hm⟩⟩
    · intro h
      obtain ⟨st, hst, hm⟩ := h
      obtain ⟨st2, hst2, hm2⟩ := (hsingle st).1 hm
      rw [show matchStates states (c :: s) =
            matchStates ((states.map (fun t => derivA t c)).flatten) s from rfl,
        ih]
      refine ⟨st2, ?_, hm2⟩
      simp only [List.mem_flatten, List.mem_map]
      exact ⟨derivA st c, ⟨st, hst, rfl⟩, hst2⟩

theorem matchFrom_cons_iff (atoms : List Atom) (c : Char) (s : List Char) :
    matchFrom atoms (c :: s) = true ↔
      ∃ st ∈ derivA atoms c, matchFrom st s = true := by
  show matchStates [atoms] (c :: s) = true ↔ _
  rw [show matchStates [atoms] (c :: s) =
        matchStates (([atoms].map (fun t => derivA t c)).flatten) s from rfl,
    matchStates_iff]
  simp [matchFrom]

theorem matchFrom_nil_iff (atoms : List Atom) :
    matchFrom atoms [] = true ↔ nullableA atoms = true := by
  simp [matchFrom, matchStates]

theorem matchFrom_once (cls : Char → Bool) (rest : List Atom) (c : Char)
    (s : List Char) (hc : cls c = true) (h : matchFrom rest s = true) :
    matchFrom (⟨cls, .once⟩ :: rest) (c :: s) = true := by
  rw [matchFrom_cons_iff]
  refine ⟨rest, ?_, h⟩
  simp [derivA, hc]

theorem matchFrom_star_skip (cls : Char → Bool) (rest : List Atom)
    (s : List Char) (h : matchFrom rest s = true) :
    matchFrom (⟨cls, .star⟩ :: rest) s = true := by
  cases s with
  | nil =>
    rw [matchFrom_nil_iff] at h ⊢
    simp [nullableA] at h ⊢
    exact h
  | cons c s =>
    rw [matchFrom_cons_iff] at h ⊢
    obtain ⟨st, hst, hm⟩ := h
    exact ⟨st, by simp [derivA]; right; exact hst, hm⟩

theorem matchFrom_star_consume (cls : Char → Bool) (rest : List Atom)
    (xs ys : List Char) (hall : ∀ c ∈ xs, cls c = true)
    (h : matchFrom (⟨cls, .star⟩ :: rest) ys = true) :
    matchFrom (⟨cls, .star⟩ :: rest) (xs ++ ys) = true := by
  induction xs with
  | nil => simpa using h
  | cons x xs ih =>
    have hx : cls x = true := hall x (by simp)
    rw [List.cons_append, matchFrom_cons_iff]
    refine ⟨⟨cls, .star⟩ :: rest, ?_, ih (fun c hc => hall c (by simp [hc]))⟩
    simp [derivA, hx]

theorem matchFrom_star (cls : Char → Bool) (rest : List Atom)
    (xs ys : List Char) (hall : ∀ c ∈ xs, cls c = true)
    (h : matchFrom rest ys = true) :
    matchFrom (⟨cls, .star⟩ :: rest) (xs ++ ys) = true :=
  matchFrom_star_consume cls rest xs ys hall (matchFrom_star_skip cls rest ys h)

theorem matchFrom_plus (cls : Char → Bool) (rest : List Atom)
    (x : Char) (xs ys : List Char) (hx : cls x = true)
    (hall : ∀ c ∈ xs, cls c = true) (h : matchFrom rest ys = true) :
    matchFrom (⟨cls, .once⟩ :: ⟨cls, .star⟩ :: rest) (x :: (xs ++ ys)) = true :=
  matchFrom_once cls _ x (xs ++ ys) hx (matchFrom_star cls rest xs ys hall h)

/-- Strings whose first and last characters are not space survive
TrimSpace unchanged. -/
theorem trimSpace_eq_self (l : List Char)
    (hh : ∀ c, l.head? = some c → isGoSpace c = false)
    (hl : ∀ c, l.getLast? = some c → isGoSpace c = false) :
    trimSpace l = l := by
  unfold trimSpace
  have h1 : l.dropWhile isGoSpace = l := by
    cases l with
    | nil => simp
    | cons c t => simp [List.dropWhile_cons, hh c rfl]
  rw [h1]
  have h2 : l.reverse.dropWhile isGoSpace = l.reverse := by
    cases hr : l.reverse with
    | nil => simp
    | cons c t =>
      have hc : l.getLast? = some c := by
        rw [← List.head?_reverse, hr]
        simp
      simp [List.dropWhile_cons, hl c hc]
  rw [h2, List.reverse_reverse]

/-- All-space strings trim to the empty string. -/
theorem trimSpace_eq_nil (l : List Char) (h : ∀ c ∈ l, isGoSpace c = true) :
    trimSpace l = [] := by
  unfold trimSpace
  rw [List.dropWhile_eq_nil_iff.2 h]
  simp

/-- The number of comma-separated segments is the comma count plus one. -/
theorem splitComma_length (l : List Char) :
    (splitComma l).length = l.count ',' + 1 := by
  induction l with
  | nil => simp [splitComma]
  | cons c t ih =>
    cases hs : splitComma t with
    | nil => rw [hs] at ih; simp at ih
    | cons p ps =>
      rw [hs] at ih
      by_cases hc : c = ','
      · subst hc
        simp [splitComma, hs, List.count_cons] at ih ⊢
        omega
      · simp [splitComma, hs, hc, List.count_cons] at ih ⊢
        omega

/-- Digits are not space characters. -/
theorem isGoSpace_of_digit (c : Char) (h : isDigitCh c = true) :
    isGoSpace c = false := by
  simp only [isDigitCh, Bool.and_eq_true, decide_eq_true_eq] at h
  simp only [isGoSpace]
  simp only [Bool.or_eq_false_iff, Bool.and_eq_false_iff, decide_eq_false_iff_not]
  omega

/-! ## Coordinates and their validity check

Coordinates are float64 values in Go; all the code does with them here is
compare them against exact decimal constants, so they are modelled as
rationals. -/

structure Coordinates where
  lat : ℚ
  lon : ℚ
  deriving DecidableEq, Repr

/-- Embedding of areValidCoordinates from property/types.go (identical in
main.go). -/
def areValidCoordinates (lat lon : ℚ) : Bool :=
  lat ≠ 0 && lon ≠ 0 &&
  lat ≥ -90 && lat ≤ 90 &&
  lon ≥ -180 && lon ≤ 180

/-! ## School tags and school-type derivation -/

/-- Embedding of school.Tags (the struct field names of the Go type; the
JSON key strings are irrelevant to the embedded logic). -/
structure SchoolTags where
  Name : String := ""
  SchoolType : String := ""
  IsrcRating : String := ""
  School : String := ""
  SchoolCategory : String := ""
  SchoolLevel : String := ""
  Education : String := ""
  EducationType : String := ""
  deriving DecidableEq, Repr

/-- Model of strings.ReplaceAll(s, underscore, space). -/
def replaceUnderscores (s : List Char) : List Char :=
  s.map (fun c => if c = '_' then ' ' else c)

/-- ASCII upper-casing of one character, as Go does for ASCII letters. -/
def toUpperCh (c : Char) : Char :=
  if isLowerCh c then Char.ofNat (c.toNat - 32) else c

/-- ASCII lower-casing of one character. -/
def toLowerCh (c : Char) : Char :=
  if isUpperCh c then Char.ofNat (c.toNat + 32) else c

/-- Model of the x/text cases.Title(language.English) caser restricted to
ASCII input: the first letter of each word is upper-cased and the
remaining letters are lower-cased; letters and digits continue a word,
any other character ends it. -/
def titleCaseAux : Bool → List Char → List Char
  | _, [] => []
  | inWord, c :: rest =>
    if isAlphaCh c then
      (if inWord then toLowerCh c else toUpperCh c) :: titleCaseAux true rest
    else if isDigitCh c then c :: titleCaseAux true rest
    else c :: titleCaseAux false rest

/-- Title-casing on strings. -/
def titleCase (s : String) : String :=
  ⟨titleCaseAux false s.data⟩

/-- Replace-then-title transformation applied to each candidate tag. -/
def schoolTagText (s : String) : String :=
  titleCase ⟨replaceUnderscores s.data⟩

/-- Embedding of determineSchoolType from property/types.go (the revision
the tests in property/service_test.go exercise). -/
def determineSchoolType (tags : SchoolTags) : String :=
  if tags.School ≠ "school" then "Unknown"
  else if tags.SchoolType ≠ "" then schoolTagText tags.SchoolType
  else if tags.SchoolLevel ≠ "" then schoolTagText tags.SchoolLevel
  else if tags.SchoolCategory ≠ "" then schoolTagText tags.SchoolCategory
  else if tags.Education ≠ "" then schoolTagText tags.Education
  else if tags.EducationType ≠ "" then schoolTagText tags.EducationType
  else "General School"

example : determineSchoolType { School := "school", SchoolType := "elementary" } =
    "Elementary" := by decide
example : determineSchoolType { School := "school" } = "General School" := by decide
example : determineSchoolType { School := "not_school" } = "Unknown" := by decide
example : determineSchoolType { School := "school", EducationType := "high_school" } =
    "High School" := by decide

/-! ## Mock school rating -/

/-- UTF-8 byte sequence of one character (Go strings are UTF-8 encoded and
name[i] indexes bytes). -/
def utf8Bytes (c : Char) : List Nat :=
  let n := c.toNat
  if n < 0x80 then [n]
  else if n < 0x800 then
    [0xC0 ||| (n >>> 6), 0x80 ||| (n &&& 0x3F)]
  else if n < 0x10000 then
    [0xE0 ||| (n >>> 12), 0x80 ||| ((n >>> 6) &&& 0x3F), 0x80 ||| (n &&& 0x3F)]
  else
    [0xF0 ||| (n >>> 18), 0x80 ||| ((n >>> 12) &&& 0x3F),
     0x80 ||| ((n >>> 6) &&& 0x3F), 0x80 ||| (n &&& 0x3F)]

/-- Byte sequence of a Go string. -/
def goStringBytes (s : String) : List Nat :=
  (s.data.map utf8Bytes).flatten

/-- The uint32 hash loop of mockSchoolRating: hash = hash*31 + name[i],
with uint32 wrap-around. -/
def nameHash (name : String) : Nat :=
  (goStringBytes name).foldl (fun h b => (h * 31 + b) % 4294967296) 0

/-- Model of Go math.Round (round half away from zero) on rationals. -/
def goRoundQ (x : ℚ) : ℚ :=
  if 0 ≤ x then (⌊x + 1/2⌋ : ℤ) else -(⌊-x + 1/2⌋ : ℤ)

/-- Embedding of mockSchoolRating from property/types.go. -/
def mockSchoolRating (name : String) : ℚ :=
  let rating : ℚ := 3 + ((nameHash name % 20 : ℕ) : ℚ) / 10
  goRoundQ (rating * 10) / 10

/-- Embedding of determineSchoolRating from property/types.go. -/
def determineSchoolRating (tags : SchoolTags) : ℚ :=
  mockSchoolRating tags.Name

/-- Helper: the rounding step of mockSchoolRating is the identity, because
the value being rounded is already an exact multiple of one tenth. -/
theorem goRound_tenths (k : ℕ) :
    goRoundQ ((3 + (k : ℚ) / 10) * 10) / 10 = 3 + (k : ℚ) / 10 := by
  have h10 : ((3:ℚ) + (k : ℚ) / 10) * 10 = (((30 + k : ℕ) : ℤ) : ℚ) := by
    push_cast; ring
  have hpos : (0:ℚ) ≤ (3 + (k : ℚ) / 10) * 10 := by positivity
  unfold goRoundQ
  rw [if_pos hpos, h10, Int.floor_int_add]
  rw [show ⌊(1/2 : ℚ)⌋ = 0 from by norm_num]
  push_cast
  ring

theorem mockSchoolRating_eq (name : String) :
    mockSchoolRating name = 3 + ((nameHash name % 20 : ℕ) : ℚ) / 10 := by
  show goRoundQ ((3 + ((nameHash name % 20 : ℕ) : ℚ) / 10) * 10) / 10 = _
  exact goRound_tenths _

example : mockSchoolRating "O" = 4.9 := by
  have h : nameHash "O" % 20 = 19 := by decide
  rw [mockSchoolRating_eq, h]; norm_num
example : mockSchoolRating "Test School" = 3.6 := by
  have h : nameHash "Test School" % 20 = 6 := by decide
  rw [mockSchoolRating_eq, h]; norm_num

/-! ## Great-circle distance

calculateDistance is genuinely numeric (trigonometric functions applied to
float64 values) and is modelled over the real numbers. -/

/-- Model of Go math.Round (round half away from zero) on the reals. -/
noncomputable def goRound (x : ℝ) : ℝ :=
  if 0 ≤ x then ((⌊x + 1/2⌋ : ℤ) : ℝ) else -((⌊-x + 1/2⌋ : ℤ) : ℝ)

/-- Model of Go math.Atan2 on finite inputs (the NaN/infinity and signed
zero cases of the float64 function do not arise over the reals). -/
noncomputable def atan2 (y x : ℝ) : ℝ :=
  if 0 < x then Real.arctan (y / x)
  else if x < 0 then
    (if 0 ≤ y then Real.arctan (y / x) + Real.pi else Real.arctan (y / x) - Real.pi)
  else
    (if 0 < y then Real.pi / 2 else if y < 0 then -(Real.pi / 2) else 0)

/-- Embedding of calculateDistance from property/types.go (identical in
main.go): haversine distance, Earth radius 6371.0 km, rounded to two
decimal places. -/
noncomputable def calculateDistance (lat1 lon1 lat2 lon2 : ℝ) : ℝ :=
  let R : ℝ := 6371.0
  let lat1Rad := lat1 * Real.pi / 180
  let lon1Rad := lon1 * Real.pi / 180
  let lat2Rad := lat2 * Real.pi / 180
  let lon2Rad := lon2 * Real.pi / 180
  let dLat := lat2Rad - lat1Rad
  let dLon := lon2Rad - lon1Rad
  let a := Real.sin (dLat/2) * Real.sin (dLat/2) +
    Real.cos lat1Rad * Real.cos lat2Rad *
      Real.sin (dLon/2) * Real.sin (dLon/2)
  let c := 2 * atan2 (Real.sqrt a) (Real.sqrt (1 - a))
  let distance := R * c
  goRound (distance * 100) / 100

/-- Modelled from the spec: the textbook haversine great-circle distance
(central angle written with arcsin), Earth radius 6371.0 km, rounded to
two decimal places.  Used as the reference function for the refinement
claim about calculateDistance. -/
noncomputable def haversineSpec (lat1 lon1 lat2 lon2 : ℝ) : ℝ :=
  let lat1Rad := lat1 * Real.pi / 180
  let lat2Rad := lat2 * Real.pi / 180
  let dLat := lat2 * Real.pi / 180 - lat1 * Real.pi / 180
  let dLon := lon2 * Real.pi / 180 - lon1 * Real.pi / 180
  let h := Real.sin (dLat/2) ^ 2 +
    Real.cos lat1Rad * Real.cos lat2Rad * Real.sin (dLon/2) ^ 2
  goRound ((6371.0 * (2 * Real.arcsin (Real.sqrt h))) * 100) / 100

/-! ## Upstream call outcomes

Each network call in the Go code either fails at the transport level, or
yields a response with a status code and a body; decoding the body into
the target Go structure can fail because the body is not JSON at all or
because the JSON does not fit the structure.  The embedded functions take
this outcome as an explicit argument. -/

inductive BodyDecode (α : Type) where
  | badJSON
  | badShape
  | decoded (value : α)
  deriving DecidableEq, Repr

inductive UpstreamResult (α : Type) where
  | transportError (msg : String)
  | response (status : ℕ) (body : BodyDecode α)
  deriving DecidableEq, Repr

/-- Digits of a character list read as a natural number. -/
def digitsToNat (l : List Char) : ℕ :=
  l.foldl (fun acc c => acc * 10 + (c.toNat - 48)) 0

/-- Model of the plain decimal subset of Go strconv.ParseFloat: optional
sign, an integer part and an optional fractional part, at least one digit
overall.  (ParseFloat additionally accepts exponent, hexadecimal and
infinity forms, none of which occur in the claims; the decimal value is
taken exactly rather than rounded to the nearest float64.) -/
def parseGoFloat (s : String) : Option ℚ :=
  let sign : ℚ := if s.data.head? = some '-' then -1 else 1
  let body : List Char :=
    if s.data.head? = some '-' || s.data.head? = some '+' then s.data.tail
    else s.data
  let intPart := body.takeWhile isDigitCh
  let rest := body.dropWhile isDigitCh
  match rest with
  | [] =>
    if intPart.isEmpty then none
    else some (sign * digitsToNat intPart)
  | c :: fracPart =>
    if c = '.' && fracPart.all isDigitCh && !(intPart.isEmpty && fracPart.isEmpty) then
      some (sign * ((digitsToNat intPart : ℚ) +
        (digitsToNat fracPart : ℚ) / (10 : ℚ) ^ fracPart.length))
    else none

/-- Model of Go strconv.Atoi: optional sign and a non-empty digit string. -/
def parseGoInt (s : String) : Option ℤ :=
  let sign : ℤ := if s.data.head? = some '-' then -1 else 1
  let body : List Char :=
    if s.data.head? = some '-' || s.data.head? = some '+' then s.data.tail
    else s.data
  if body.isEmpty || !body.all isDigitCh then none
  else some (sign * digitsToNat body)

example : parseGoFloat "37.7749" = some (37.7749 : ℚ) := by
  simp +decide [parseGoFloat, digitsToNat, isDigitCh]; norm_num
example : parseGoFloat "-122.4194" = some (-122.4194 : ℚ) := by
  simp +decide [parseGoFloat, digitsToNat, isDigitCh]; norm_num
example : parseGoFloat "invalid" = none := by
  simp +decide [parseGoFloat, digitsToNat, isDigitCh]
example : parseGoInt "2" = some 2 := by
  simp +decide [parseGoInt, digitsToNat, isDigitCh]

/-- One result entry of the Nominatim search response used by
geocodeAddress (the lat/lon fields are JSON strings). -/
structure NominatimResult where
  lat : String
  lon : String
  deriving DecidableEq, Repr

/-- Embedding of (service) geocodeAddress from property/types.go
(identical in main.go): the upstream outcome is passed explicitly.  Note
the function never inspects the response status code. -/
def geocodeAddress (resp : UpstreamResult (List NominatimResult)) :
    Except String Coordinates :=
  match resp with
  | .transportError msg => .error msg
  | .response _ .badJSON => .error "decode failed"
  | .response _ .badShape => .error "decode failed"
  | .response _ (.decoded results) =>
    match results with
    | [] => .error "address not found"
    | r :: _ =>
      match parseGoFloat r.lat with
      | none => .error "invalid latitude value"
      | some lat =>
        match parseGoFloat r.lon with
        | none => .error "invalid longitude value"
        | some lon => .ok { lat := lat, lon := lon }

/-! ## Property details (OpenCage response) -/

/-- Embedding of opencage.Components (field Type is renamed ctype because
Type is reserved in Lean). -/
structure OCComponents where
  ctype : String := ""
  category : String := ""
  buildingUse : String := ""
  houseNumber : String := ""
  road : String := ""
  suburb : String := ""
  city : String := ""
  state : String := ""
  postcode : String := ""
  country : String := ""
  buildingLevels : String := ""
  residential : String := ""
  apartments : String := ""
  deriving DecidableEq, Repr

/-- Embedding of opencage.OSM. -/
structure OCOSM where
  buildingLevels : String := ""
  amenity : String := ""
  buildingType : String := ""
  deriving DecidableEq, Repr

/-- Embedding of opencage.Timezone. -/
structure OCTimezone where
  name : String := ""
  deriving DecidableEq, Repr

/-- Embedding of opencage.RoadInfo. -/
structure OCRoadInfo where
  speedLimit : String := ""
  surface : String := ""
  deriving DecidableEq, Repr

/-- Embedding of opencage.Annotations. -/
structure OCAnnotations where
  timezone : OCTimezone := {}
  roadinfo : OCRoadInfo := {}
  osm : OCOSM := {}
  deriving DecidableEq, Repr

/-- Embedding of opencage.Geometry. -/
structure OCGeometry where
  lat : ℚ := 0
  lng : ℚ := 0
  deriving DecidableEq, Repr

/-- Embedding of opencage.Result. -/
structure OCResult where
  confidence : ℤ := 0
  components : OCComponents := {}
  formatted : String := ""
  geometry : OCGeometry := {}
  annotations : OCAnnotations := {}
  deriving DecidableEq, Repr

/-- Embedding of opencage.Status. -/
structure OCStatus where
  code : ℤ := 0
  message : String := ""
  deriving DecidableEq, Repr

/-- Embedding of opencage.Response. -/
structure OCResponse where
  results : List OCResult := []
  status : OCStatus := {}
  deriving DecidableEq, Repr

/-- Embedding of property.Details. -/
structure Details where
  Size : String
  Rooms : ℤ
  Value : ℚ
  LastUpdated : String
  deriving DecidableEq, Repr

/-- Embedding of (service) getPropertyDetails from property/types.go.  The
upstream outcome and the timestamp taken at call time are explicit
arguments; the two decoding stages of the Go code (raw JSON decode, then
re-marshal into the structured type) are the badJSON and badShape cases. -/
def getPropertyDetails (now : String) (resp : UpstreamResult OCResponse) :
    Except String Details :=
  match resp with
  | .transportError msg => .error ("failed to fetch property details: " ++ msg)
  | .response _ .badJSON => .error "failed to decode raw response"
  | .response _ .badShape => .error "failed to parse structured response"
  | .response _ (.decoded result) =>
    let details : Details :=
      { Size := "Mock-Data", Rooms := 3, Value := 500000, LastUpdated := now }
    match result.results with
    | [] => .ok details
    | r :: _ =>
      let components := r.components
      let annots := r.annotations
      let sizeDetails : List String :=
        (if components.ctype = "residential" ∨ components.category = "building" then
          (if components.buildingUse ≠ "" then [components.buildingUse] else []) ++
          (if components.ctype ≠ "" then [components.ctype] else [])
         else []) ++
        (if components.buildingLevels ≠ "" then
          [components.buildingLevels ++ " stories"]
         else if annots.osm.buildingLevels ≠ "" then
          [annots.osm.buildingLevels ++ " stories"]
         else []) ++
        (if components.apartments ≠ "" then ["apartment building"] else [])
      let size :=
        if sizeDetails.length > 0 then " ".intercalate sizeDetails
        else "Residential Property"
      let rooms : ℤ :=
        match parseGoInt components.buildingLevels with
        | some levels => if levels > 0 then levels * 2 else details.Rooms
        | none => details.Rooms
      .ok { details with Size := size, Rooms := rooms }

/-! ## Nearby schools (Overpass response) -/

/-- Embedding of property.School (field Type renamed stype).  The distance
is the real-valued result of calculateDistance; name, rating and type are
exact. -/
structure School where
  Name : String
  Distance : ℝ
  Rating : ℚ
  stype : String

/-- Center coordinates of a way or relation element. -/
structure OverpassCenter where
  lat : ℚ := 0
  lon : ℚ := 0
  deriving DecidableEq, Repr

/-- One element of the Overpass response used by getNearbySchools.  In Go
the center field is a pointer, hence an Option here; absent lat/lon JSON
fields decode to 0. -/
structure OverpassElement where
  etype : String := ""
  tags : SchoolTags := {}
  lat : ℚ := 0
  lon : ℚ := 0
  center : Option OverpassCenter := none
  deriving DecidableEq, Repr

/-- The decoded Overpass response body. -/
structure OverpassResponse where
  elements : List OverpassElement := []
  deriving DecidableEq, Repr

/-- Coordinate selection for one element: direct lat/lon for node
elements, the center point for way/relation elements, nothing otherwise. -/
def resolveCoord (e : OverpassElement) : Option (ℚ × ℚ) :=
  if e.etype = "node" then some (e.lat, e.lon)
  else
    match e.center with
    | some c => some (c.lat, c.lon)
    | none => none

/-- The school record built for one element that passed all filters. -/
noncomputable def mkSchool (coords : Coordinates) (e : OverpassElement)
    (slat slon : ℚ) : School :=
  { Name := e.tags.Name
    Distance := calculateDistance (coords.lat : ℝ) (coords.lon : ℝ) (slat : ℝ) (slon : ℝ)
    Rating := determineSchoolRating e.tags
    stype := determineSchoolType e.tags }

/-- The element loop of getNearbySchools: skip unnamed elements, elements
without a usable coordinate, and elements with invalid coordinates. -/
noncomputable def collectSchools (coords : Coordinates) :
    List OverpassElement → List School
  | [] => []
  | e :: rest =>
    if e.tags.Name = "" then collectSchools coords rest
    else
      match resolveCoord e with
      | none => collectSchools coords rest
      | some (slat, slon) =>
        if areValidCoordinates slat slon then
          mkSchool coords e slat slon :: collectSchools coords rest
        else collectSchools coords rest

/-- Embedding of (service) getNearbySchools from property/types.go.  As
with the other two calls, the upstream outcome is an explicit argument. -/
noncomputable def getNearbySchools (coords : Coordinates)
    (resp : UpstreamResult OverpassResponse) : Except String (List School) :=
  match resp with
  | .transportError msg => .error ("failed to fetch schools: " ++ msg)
  | .response _ .badJSON => .error "failed to decode raw response"
  | .response _ .badShape => .error "failed to parse structured response"
  | .response _ (.decoded result) => .ok (collectSchools coords result.elements)

/-! ### Lemmas for the distance computation -/

theorem cos_eq_one_sub_two_sin_sq (x : ℝ) :
    Real.cos x = 1 - 2 * Real.sin (x / 2) ^ 2 := by
  have h1 := Real.cos_two_mul (x / 2)
  have h2 := Real.sin_sq_add_cos_sq (x / 2)
  have hx : 2 * (x / 2) = x := by ring
  rw [hx] at h1
  linarith

/-- The haversine expression always lies in [0, 1]. -/
theorem hav_mem (x y z : ℝ) :
    0 ≤ Real.sin ((y - x) / 2) ^ 2 +
        Real.cos x * Real.cos y * Real.sin (z / 2) ^ 2 ∧
      Real.sin ((y - x) / 2) ^ 2 +
        Real.cos x * Real.cos y * Real.sin (z / 2) ^ 2 ≤ 1 := by
  have hs1 : Real.sin ((y - x) / 2) ^ 2 = (1 - Real.cos (y - x)) / 2 := by
    have := cos_eq_one_sub_two_sin_sq (y - x)
    linarith
  have hs2 : Real.sin (z / 2) ^ 2 = (1 - Real.cos z) / 2 := by
    have := cos_eq_one_sub_two_sin_sq z
    linarith
  have hc : Real.cos (y - x) = Real.cos y * Real.cos x + Real.sin y * Real.sin x :=
    Real.cos_sub y x
  constructor <;>
    nlinarith [sq_nonneg (Real.sin x - Real.sin y),
      sq_nonneg (Real.cos x - Real.cos y * Real.cos z),
      sq_nonneg (Real.sin x + Real.sin y),
      sq_nonneg (Real.cos x + Real.cos y * Real.cos z),
      Real.sin_sq_add_cos_sq x, Real.sin_sq_add_cos_sq y,
      Real.sin_sq_add_cos_sq z,
      mul_nonneg (sq_nonneg (Real.cos y)) (sq_nonneg (Real.sin z))]

/-- For arguments in [0, 1], the atan2 form of the haversine central angle
equals the arcsin form. -/
theorem atan2_sqrt_arcsin (a : ℝ) (h0 : 0 ≤ a) (h1 : a ≤ 1) :
    atan2 (Real.sqrt a) (Real.sqrt (1 - a)) = Real.arcsin (Real.sqrt a) := by
  by_cases hlt : a < 1
  · have hx : 0 < Real.sqrt (1 - a) := Real.sqrt_pos.2 (by linarith)
    unfold atan2
    rw [if_pos hx]
    have hmem : Real.sqrt a ∈ Set.Ioo (-1 : ℝ) 1 := by
      constructor
      · have := Real.sqrt_nonneg a
        linarith
      · calc Real.sqrt a < Real.sqrt 1 := Real.sqrt_lt_sqrt h0 hlt
          _ = 1 := Real.sqrt_one
    rw [Real.arcsin_eq_arctan hmem, Real.sq_sqrt h0]
  · have ha : a = 1 := le_antisymm h1 (not_lt.1 hlt)
    subst ha
    norm_num [atan2, Real.sqrt_one, Real.arcsin_one]

/-- The embedded calculateDistance agrees everywhere with the arcsin form
of the haversine distance from the specification. -/
theorem calculateDistance_eq (lat1 lon1 lat2 lon2 : ℝ) :
    calculateDistance lat1 lon1 lat2 lon2 = haversineSpec lat1 lon1 lat2 lon2 := by
  have hmem := hav_mem (lat1 * Real.pi / 180) (lat2 * Real.pi / 180)
    (lon2 * Real.pi / 180 - lon1 * Real.pi / 180)
  simp only [calculateDistance, haversineSpec]
  rw [show Real.sin ((lat2 * Real.pi / 180 - lat1 * Real.pi / 180) / 2) *
      Real.sin ((lat2 * Real.pi / 180 - lat1 * Real.pi / 180) / 2) +
      Real.cos (lat1 * Real.pi / 180) * Real.cos (lat2 * Real.pi / 180) *
      Real.sin ((lon2 * Real.pi / 180 - lon1 * Real.pi / 180) / 2) *
      Real.sin ((lon2 * Real.pi / 180 - lon1 * Real.pi / 180) / 2) =
      Real.sin ((lat2 * Real.pi / 180 - lat1 * Real.pi / 180) / 2) ^ 2 +
      Real.cos (lat1 * Real.pi / 180) * Real.cos (lat2 * Real.pi / 180) *
      Real.sin ((lon2 * Real.pi / 180 - lon1 * Real.pi / 180) / 2) ^ 2
    from by ring]
  rw [atan2_sqrt_arcsin _ hmem.1 hmem.2]

/-- Interval bounds for sin from the quartic remainder estimate, together
with monotonicity of the cubic approximation on [-1, 1]. -/
theorem sin_interval (x xl xu M : ℝ) (h1 : xl ≤ x) (h2 : x ≤ xu)
    (hM1 : -M ≤ xl) (hM2 : xu ≤ M) (hM : M ≤ 1) (_hM0 : 0 ≤ M) :
    xl - xl ^ 3 / 6 - M ^ 4 * (5 / 96) ≤ Real.sin x ∧
      Real.sin x ≤ xu - xu ^ 3 / 6 + M ^ 4 * (5 / 96) := by
  have hxl1 : -1 ≤ xl := by linarith
  have hxu1 : xu ≤ 1 := by linarith
  have hxabs : |x| ≤ 1 := abs_le.2 ⟨by linarith, by linarith⟩
  have hb := abs_le.1 (Real.sin_bound hxabs)
  have hxM : |x| ≤ M := abs_le.2 ⟨by linarith, by linarith⟩
  have h4 : |x| ^ 4 ≤ M ^ 4 := pow_le_pow_left₀ (abs_nonneg x) hxM 4
  have he : |x| ^ 4 * (5 / 96) ≤ M ^ 4 * (5 / 96) := by nlinarith
  have hx2 : x ^ 2 ≤ 1 := by nlinarith
  have hxl2 : xl ^ 2 ≤ 1 := by nlinarith
  have hxu2 : xu ^ 2 ≤ 1 := by nlinarith
  have hxxl : x * xl ≤ 1 := by nlinarith [sq_nonneg (x - xl), sq_nonneg (x + xl)]
  have hxxu : x * xu ≤ 1 := by nlinarith [sq_nonneg (x - xu), sq_nonneg (x + xu)]
  have hcub_l : xl - xl ^ 3 / 6 ≤ x - x ^ 3 / 6 := by
    have h6 : (0 : ℝ) ≤ 6 - (x ^ 2 + x * xl + xl ^ 2) := by linarith
    nlinarith [mul_nonneg (sub_nonneg.2 h1) h6]
  have hcub_u : x - x ^ 3 / 6 ≤ xu - xu ^ 3 / 6 := by
    have h6 : (0 : ℝ) ≤ 6 - (xu ^ 2 + xu * x + x ^ 2) := by linarith
    nlinarith [mul_nonneg (sub_nonneg.2 h2) h6]
  constructor <;> linarith [hb.1, hb.2]

/-- Interval bound for the haversine expression of the worked example,
from interval bounds on its four trigonometric constituents. -/
theorem hav_example_core (p1 p2 q1 q2 : ℝ)
    (hp1l : (-0.0324811 : ℝ) ≤ p1) (hp1u : p1 ≤ -0.0324808)
    (hp2l : (0.0364316 : ℝ) ≤ p2) (hp2u : p2 ≤ 0.0364319)
    (hq1l : (0.789668 : ℝ) ≤ q1) (hq1u : q1 ≤ 0.791262)
    (hq2l : (0.828073 : ℝ) ≤ q2) (hq2u : q2 ≤ 0.829027) :
    (0.0019228 : ℝ) ≤ p1 ^ 2 + q1 * q2 * p2 ^ 2 ∧
      p1 ^ 2 + q1 * q2 * p2 ^ 2 ≤ 0.0019258 := by
  have ht1l : (0.00105500 : ℝ) ≤ p1 ^ 2 := by
    nlinarith [sq_nonneg (p1 + 0.0324808)]
  have ht1u : p1 ^ 2 ≤ 0.00105503 := by
    nlinarith [mul_nonneg (by linarith : (0:ℝ) ≤ p1 + 0.0324811)
      (by linarith : (0:ℝ) ≤ -0.0324808 - p1)]
  have ht2l : (0.00132726 : ℝ) ≤ p2 ^ 2 := by
    nlinarith [mul_nonneg (by linarith : (0:ℝ) ≤ p2 - 0.0364316)
      (by linarith : (0:ℝ) ≤ p2 + 0.0364316)]
  have ht2u : p2 ^ 2 ≤ 0.00132729 := by
    nlinarith [mul_nonneg (by linarith : (0:ℝ) ≤ 0.0364319 - p2)
      (by linarith : (0:ℝ) ≤ 0.0364319 + p2)]
  have hPl : (0.65390 : ℝ) ≤ q1 * q2 := by
    nlinarith [mul_nonneg (by linarith : (0:ℝ) ≤ q1 - 0.789668)
      (by linarith : (0:ℝ) ≤ q2 - 0.828073)]
  have hPu : q1 * q2 ≤ 0.65598 := by
    nlinarith [mul_nonneg (by linarith : (0:ℝ) ≤ 0.791262 - q1)
      (by linarith : (0:ℝ) ≤ 0.829027 - q2)]
  constructor
  · nlinarith [mul_nonneg (by linarith : (0:ℝ) ≤ q1 * q2 - 0.65390)
      (by linarith : (0:ℝ) ≤ p2 ^ 2 - 0.00132726)]
  · nlinarith [mul_nonneg (by linarith : (0:ℝ) ≤ 0.65598 - q1 * q2)
      (by linarith : (0:ℝ) ≤ 0.00132729 - p2 ^ 2)]

/-- Arcsin-of-sqrt bounds for the worked example, isolated so that the
context stays small. -/
theorem arcsin_tail (H : ℝ) (hHl : (0.0019228 : ℝ) ≤ H)
    (hHu : H ≤ 0.0019258) :
    (0.04386 : ℝ) ≤ Real.arcsin (Real.sqrt H) ∧
      Real.arcsin (Real.sqrt H) ≤ 0.04390 := by
  have hpl : (3.141592 : ℝ) < Real.pi := Real.pi_gt_d6
  have hsq_l : (0.043847 : ℝ) ≤ Real.sqrt H :=
    (Real.le_sqrt (by norm_num) (by linarith)).2 (by nlinarith)
  have hsq_u : Real.sqrt H ≤ 0.0438856 :=
    Real.sqrt_le_iff.2 ⟨by norm_num, by nlinarith⟩
  obtain ⟨he1, he2⟩ := sin_interval 0.04386 0.04386 0.04386 0.044
    le_rfl le_rfl (by norm_num) (by norm_num) (by norm_num) (by norm_num)
  obtain ⟨hf1, hf2⟩ := sin_interval 0.04390 0.04390 0.04390 0.044
    le_rfl le_rfl (by norm_num) (by norm_num) (by norm_num) (by norm_num)
  constructor
  · apply (Real.le_arcsin_iff_sin_le
      (Set.mem_Icc.mpr ⟨by linarith, by linarith⟩)
      (Set.mem_Icc.mpr ⟨by linarith [Real.sqrt_nonneg H], by linarith⟩)).2
    calc Real.sin 0.04386 ≤ 0.043847 := le_trans he2 (by norm_num)
      _ ≤ _ := hsq_l
  · apply (Real.arcsin_le_iff_le_sin
      (Set.mem_Icc.mpr ⟨by linarith [Real.sqrt_nonneg H], by linarith⟩)
      (Set.mem_Icc.mpr ⟨by linarith, by linarith⟩)).2
    calc Real.sqrt H ≤ 0.0438856 := hsq_u
      _ ≤ Real.sin 0.04390 := le_trans (by norm_num) hf1

/-- Go math.Round changes a value by at most one half. -/
theorem goRound_bounds (x : ℝ) :
    x - 1 / 2 ≤ goRound x ∧ goRound x ≤ x + 1 / 2 := by
  unfold goRound
  split_ifs with h
  · constructor
    · have := Int.sub_one_lt_floor (x + 1 / 2)
      push_cast at this ⊢
      linarith
    · have := Int.floor_le (x + 1 / 2)
      push_cast at this ⊢
      linarith
  · constructor
    · have := Int.floor_le (-x + 1 / 2)
      push_cast at this ⊢
      linarith
    · have := Int.sub_one_lt_floor (-x + 1 / 2)
      push_cast at this ⊢
      linarith

set_option maxHeartbeats 1000000 in
/-- Numeric evaluation of the worked example: the distance between
(37.7749, -122.4194) and (34.0522, -118.2437) is within 1 km of 559.12. -/
theorem worked_example_bound :
    |calculateDistance 37.7749 (-122.4194) 34.0522 (-118.2437) - 559.12| ≤ 1 := by
  rw [calculateDistance_eq]
  simp only [haversineSpec]
  have hpl : (3.141592 : ℝ) < Real.pi := Real.pi_gt_d6
  have hpu : Real.pi < 3.141593 := Real.pi_lt_d6
  -- half of dLat
  have hx1l : (-0.03248669 : ℝ) ≤
      (34.0522 * Real.pi / 180 - 37.7749 * Real.pi / 180) / 2 := by linarith
  have hx1u : (34.0522 * Real.pi / 180 - 37.7749 * Real.pi / 180) / 2 ≤
      -0.03248667 := by linarith
  obtain ⟨ha1, ha2⟩ := sin_interval
    ((34.0522 * Real.pi / 180 - 37.7749 * Real.pi / 180) / 2)
    (-0.03248669) (-0.03248667) 0.0325 hx1l hx1u
    (by norm_num) (by norm_num) (by norm_num) (by norm_num)
  have hp1l : (-0.0324811 : ℝ) ≤
      Real.sin ((34.0522 * Real.pi / 180 - 37.7749 * Real.pi / 180) / 2) :=
    le_trans (by norm_num) ha1
  have hp1u : Real.sin ((34.0522 * Real.pi / 180 - 37.7749 * Real.pi / 180) / 2) ≤
      -0.0324808 :=
    le_trans ha2 (by norm_num)
  -- half of dLon
  have hx2l : (0.03643984 : ℝ) ≤
      (-118.2437 * Real.pi / 180 - -122.4194 * Real.pi / 180) / 2 := by linarith
  have hx2u : (-118.2437 * Real.pi / 180 - -122.4194 * Real.pi / 180) / 2 ≤
      0.03643987 := by linarith
  obtain ⟨hb1, hb2⟩ := sin_interval
    ((-118.2437 * Real.pi / 180 - -122.4194 * Real.pi / 180) / 2)
    0.03643984 0.03643987 0.03644 hx2l hx2u
    (by norm_num) (by norm_num) (by norm_num) (by norm_num)
  have hp2l : (0.0364316 : ℝ) ≤
      Real.sin ((-118.2437 * Real.pi / 180 - -122.4194 * Real.pi / 180) / 2) :=
    le_trans (by norm_num) hb1
  have hp2u : Real.sin ((-118.2437 * Real.pi / 180 - -122.4194 * Real.pi / 180) / 2) ≤
      0.0364319 :=
    le_trans hb2 (by norm_num)
  -- cosine of the first latitude via the half-angle identity
  have hq1id := cos_eq_one_sub_two_sin_sq (37.7749 * Real.pi / 180)
  have hh1l : (0.32964812 : ℝ) ≤ 37.7749 * Real.pi / 180 / 2 := by linarith
  have hh1u : 37.7749 * Real.pi / 180 / 2 ≤ 0.32964823 := by linarith
  obtain ⟨hc1, hc2⟩ := sin_interval (37.7749 * Real.pi / 180 / 2)
    0.32964812 0.32964823 0.32965 hh1l hh1u
    (by norm_num) (by norm_num) (by norm_num) (by norm_num)
  have hsh1l : (0.323062 : ℝ) ≤ Real.sin (37.7749 * Real.pi / 180 / 2) :=
    le_trans (by norm_num) hc1
  have hsh1u : Real.sin (37.7749 * Real.pi / 180 / 2) ≤ 0.324293 :=
    le_trans hc2 (by norm_num)
  have hq1l : (0.789668 : ℝ) ≤ Real.cos (37.7749 * Real.pi / 180) := by
    rw [hq1id]
    nlinarith [mul_nonneg (by linarith : (0:ℝ) ≤ 0.324293 -
        Real.sin (37.7749 * Real.pi / 180 / 2))
      (by linarith : (0:ℝ) ≤ 0.324293 + Real.sin (37.7749 * Real.pi / 180 / 2))]
  have hq1u : Real.cos (37.7749 * Real.pi / 180) ≤ 0.791262 := by
    rw [hq1id]
    nlinarith [mul_nonneg (by linarith : (0:ℝ) ≤
        Real.sin (37.7749 * Real.pi / 180 / 2) - 0.323062)
      (by linarith : (0:ℝ) ≤ Real.sin (37.7749 * Real.pi / 180 / 2) + 0.323062)]
  -- cosine of the second latitude
  have hq2id := cos_eq_one_sub_two_sin_sq (34.0522 * Real.pi / 180)
  have hh2l : (0.29716144 : ℝ) ≤ 34.0522 * Real.pi / 180 / 2 := by linarith
  have hh2u : 34.0522 * Real.pi / 180 / 2 ≤ 0.29716154 := by linarith
  obtain ⟨hd1, hd2⟩ := sin_interval (34.0522 * Real.pi / 180 / 2)
    0.29716144 0.29716154 0.29717 hh2l hh2u
    (by norm_num) (by norm_num) (by norm_num) (by norm_num)
  have hsh2l : (0.292381 : ℝ) ≤ Real.sin (34.0522 * Real.pi / 180 / 2) :=
    le_trans (by norm_num) hd1
  have hsh2u : Real.sin (34.0522 * Real.pi / 180 / 2) ≤ 0.293195 :=
    le_trans hd2 (by norm_num)
  have hq2l : (0.828073 : ℝ) ≤ Real.cos (34.0522 * Real.pi / 180) := by
    rw [hq2id]
    nlinarith [mul_nonneg (by linarith : (0:ℝ) ≤ 0.293195 -
        Real.sin (34.0522 * Real.pi / 180 / 2))
      (by linarith : (0:ℝ) ≤ 0.293195 + Real.sin (34.0522 * Real.pi / 180 / 2))]
  have hq2u : Real.cos (34.0522 * Real.pi / 180) ≤ 0.829027 := by
    rw [hq2id]
    nlinarith [mul_nonneg (by linarith : (0:ℝ) ≤
        Real.sin (34.0522 * Real.pi / 180 / 2) - 0.292381)
      (by linarith : (0:ℝ) ≤ Real.sin (34.0522 * Real.pi / 180 / 2) + 0.292381)]
  -- the haversine expression
  obtain ⟨hHl, hHu⟩ := hav_example_core
    (Real.sin ((34.0522 * Real.pi / 180 - 37.7749 * Real.pi / 180) / 2))
    (Real.sin ((-118.2437 * Real.pi / 180 - -122.4194 * Real.pi / 180) / 2))
    (Real.cos (37.7749 * Real.pi / 180))
    (Real.cos (34.0522 * Real.pi / 180))
    hp1l hp1u hp2l hp2u hq1l hq1u hq2l hq2u
  obtain ⟨harc_l, harc_u⟩ := arcsin_tail
    (Real.sin ((34.0522 * Real.pi / 180 - 37.7749 * Real.pi / 180) / 2) ^ 2 +
      Real.cos (37.7749 * Real.pi / 180) * Real.cos (34.0522 * Real.pi / 180) *
        Real.sin ((-118.2437 * Real.pi / 180 - -122.4194 * Real.pi / 180) / 2) ^ 2)
    hHl hHu
  -- final rounding bound
  obtain ⟨hr1, hr2⟩ := goRound_bounds
    ((6371.0 * (2 * Real.arcsin (Real.sqrt
      (Real.sin ((34.0522 * Real.pi / 180 - 37.7749 * Real.pi / 180) / 2) ^ 2 +
        Real.cos (37.7749 * Real.pi / 180) * Real.cos (34.0522 * Real.pi / 180) *
          Real.sin ((-118.2437 * Real.pi / 180 - -122.4194 * Real.pi / 180) / 2) ^ 2)))) * 100)
  rw [abs_le]
  constructor <;> linarith only [harc_l, harc_u, hr1, hr2]

/-! # Claim theorems -/

/-- C8: the coordinate-validity predicate returns false exactly when either
component is exactly zero or a component is outside its range (latitude
outside [-90, 90] or longitude outside [-180, 180]); in particular (0,0),
(91, x) for any x, and (x, 181) for any x are invalid, and
(37.7749, -122.4194) is valid. -/
theorem areValidCoordinates_spec :
    (∀ lat lon : ℚ, areValidCoordinates lat lon = false ↔
      (lat = 0 ∨ lon = 0 ∨ lat < -90 ∨ 90 < lat ∨ lon < -180 ∨ 180 < lon)) ∧
    areValidCoordinates 0 0 = false ∧
    (∀ x : ℚ, areValidCoordinates 91 x = false) ∧
    (∀ x : ℚ, areValidCoordinates x 181 = false) ∧
    areValidCoordinates 37.7749 (-122.4194) = true := by
  have hmain : ∀ lat lon : ℚ, areValidCoordinates lat lon = false ↔
      (lat = 0 ∨ lon = 0 ∨ lat < -90 ∨ 90 < lat ∨ lon < -180 ∨ 180 < lon) := by
    intro lat lon
    simp only [areValidCoordinates, Bool.and_eq_false_iff, decide_eq_false_iff_not,
      not_not, not_le, ne_eq]
    tauto
  refine ⟨hmain, ?_, ?_, ?_, ?_⟩
  · rw [hmain]; norm_num
  · intro x; rw [hmain]; norm_num
  · intro x; rw [hmain]; norm_num
  · simp only [areValidCoordinates]
    norm_num

/-- C6: mockSchoolRating always returns a value in the closed interval
[3.0, 5.0], and the rating is a pure function of the name alone, equal to
3.0 plus one tenth of (the 31-based byte hash of the name, taken mod 2^32,
then mod 20); in particular two calls with the same name always return the
same value. -/
theorem mockSchoolRating_range :
    ∀ name : String,
      3 ≤ mockSchoolRating name ∧ mockSchoolRating name ≤ 5 ∧
      mockSchoolRating name = 3 + ((nameHash name % 20 : ℕ) : ℚ) / 10 := by
  intro name
  have h := mockSchoolRating_eq name
  have hk : nameHash name % 20 < 20 := Nat.mod_lt _ (by norm_num)
  have hk19 : ((nameHash name % 20 : ℕ) : ℚ) ≤ 19 := by
    exact_mod_cast Nat.le_of_lt_succ hk
  have hk0 : (0 : ℚ) ≤ ((nameHash name % 20 : ℕ) : ℚ) := by positivity
  refine ⟨?_, ?_, h⟩ <;> rw [h] <;> linarith

/-- C9: mockSchoolRating only takes the twenty values 3.0, 3.1, ..., 4.9;
the maximum 4.9 is attained (for example by the name "O") and the
documented top of the scale, 5.0, is never returned. -/
theorem mockSchoolRating_values :
    (∀ name : String, ∃ k : ℕ, k ≤ 19 ∧ mockSchoolRating name = 3 + (k : ℚ) / 10) ∧
    (∀ name : String, mockSchoolRating name ≤ 4.9) ∧
    (∀ name : String, mockSchoolRating name ≠ 5) ∧
    mockSchoolRating "O" = 4.9 := by
  have hub : ∀ name : String, mockSchoolRating name ≤ 4.9 := by
    intro name
    have h := mockSchoolRating_eq name
    have hk : nameHash name % 20 < 20 := Nat.mod_lt _ (by norm_num)
    have hk19 : ((nameHash name % 20 : ℕ) : ℚ) ≤ 19 := by
      exact_mod_cast Nat.le_of_lt_succ hk
    rw [h]
    norm_num
    linarith
  refine ⟨?_, hub, ?_, ?_⟩
  · intro name
    exact ⟨nameHash name % 20,
      Nat.le_of_lt_succ (Nat.mod_lt _ (by norm_num)), mockSchoolRating_eq name⟩
  · intro name hcontra
    have := hub name
    rw [hcontra] at this
    norm_num at this
  · have h : nameHash "O" % 20 = 19 := by decide
    rw [mockSchoolRating_eq, h]
    norm_num

/-- C2: the derived school type checks, in priority order, the school-type
tag, then school-level, then school-category, then education, then
education-type; the first non-empty value has underscores replaced by
spaces and is title-cased; a feature tagged as a school (amenity "school")
with none of the five tags present yields "General School"; a feature whose
amenity is not "school" yields "Unknown". -/
theorem determineSchoolType_spec :
    (∀ tags : SchoolTags, tags.School ≠ "school" →
      determineSchoolType tags = "Unknown") ∧
    (∀ tags : SchoolTags, tags.School = "school" → tags.SchoolType ≠ "" →
      determineSchoolType tags = titleCase ⟨replaceUnderscores tags.SchoolType.data⟩) ∧
    (∀ tags : SchoolTags, tags.School = "school" → tags.SchoolType = "" →
      tags.SchoolLevel ≠ "" →
      determineSchoolType tags = titleCase ⟨replaceUnderscores tags.SchoolLevel.data⟩) ∧
    (∀ tags : SchoolTags, tags.School = "school" → tags.SchoolType = "" →
      tags.SchoolLevel = "" → tags.SchoolCategory ≠ "" →
      determineSchoolType tags = titleCase ⟨replaceUnderscores tags.SchoolCategory.data⟩) ∧
    (∀ tags : SchoolTags, tags.School = "school" → tags.SchoolType = "" →
      tags.SchoolLevel = "" → tags.SchoolCategory = "" → tags.Education ≠ "" →
      determineSchoolType tags = titleCase ⟨replaceUnderscores tags.Education.data⟩) ∧
    (∀ tags : SchoolTags, tags.School = "school" → tags.SchoolType = "" →
      tags.SchoolLevel = "" → tags.SchoolCategory = "" → tags.Education = "" →
      tags.EducationType ≠ "" →
      determineSchoolType tags = titleCase ⟨replaceUnderscores tags.EducationType.data⟩) ∧
    (∀ tags : SchoolTags, tags.School = "school" → tags.SchoolType = "" →
      tags.SchoolLevel = "" → tags.SchoolCategory = "" → tags.Education = "" →
      tags.EducationType = "" →
      determineSchoolType tags = "General School") ∧
    determineSchoolType { School := "school", SchoolType := "elementary" } =
      "Elementary" ∧
    determineSchoolType { School := "school" } = "General School" ∧
    determineSchoolType { School := "not_school" } = "Unknown" := by
  refine ⟨?_, ?_, ?_, ?_, ?_, ?_, ?_, by decide, by decide, by decide⟩ <;>
    intro tags <;> intros <;>
    simp_all [determineSchoolType, schoolTagText]

/-- C2 witness: the theorem applied at concrete tag records. -/
theorem determineSchoolType_spec_witness :
    determineSchoolType { School := "not_school" } = "Unknown" ∧
    determineSchoolType { School := "school", SchoolType := "elementary" } =
      titleCase ⟨replaceUnderscores "elementary".data⟩ ∧
    determineSchoolType { School := "school" } = "General School" :=
  ⟨determineSchoolType_spec.1 { School := "not_school" } (by decide),
   determineSchoolType_spec.2.1 { School := "school", SchoolType := "elementary" }
     (by decide) (by decide),
   determineSchoolType_spec.2.2.2.2.2.2.1 { School := "school" }
     (by decide) (by decide) (by decide) (by decide) (by decide) (by decide)⟩

/-- C4: getPropertyDetails fails when the upstream body is not decodable
(invalid JSON or JSON not fitting the structure), and succeeds with exactly
the fixed default record (size "Mock-Data", 3 rooms, value 500000,
LastUpdated stamped with the time of the call) when the body is well-formed
JSON with an empty results list. -/
theorem getPropertyDetails_spec :
    (∀ (now : String) (st : ℕ),
      getPropertyDetails now (.response st .badJSON) =
        .error "failed to decode raw response" ∧
      getPropertyDetails now (.response st .badShape) =
        .error "failed to parse structured response") ∧
    (∀ (now : String) (st : ℕ) (r : OCResponse), r.results = [] →
      getPropertyDetails now (.response st (.decoded r)) =
        .ok { Size := "Mock-Data", Rooms := 3, Value := 500000, LastUpdated := now }) := by
  refine ⟨fun now st => ⟨rfl, rfl⟩, ?_⟩
  intro now st r h
  obtain ⟨results, status⟩ := r
  simp only at h
  subst h
  rfl

/-- C4 witness: the theorem applied to a concrete empty response. -/
theorem getPropertyDetails_spec_witness :
    getPropertyDetails "2024-12-22T16:10:22Z" (.response 200 (.decoded {})) =
      .ok { Size := "Mock-Data", Rooms := 3, Value := 500000,
            LastUpdated := "2024-12-22T16:10:22Z" } :=
  getPropertyDetails_spec.2 "2024-12-22T16:10:22Z" 200 {} rfl

/-- C3 counterexample: a response with non-2xx status 500 whose body is a
decodable JSON result list yields a successful coordinate result, because
geocodeAddress never inspects the status code. -/
theorem geocodeAddress_non2xx_success :
    geocodeAddress (.response 500 (.decoded [{ lat := "37.7749", lon := "-122.4194" }])) =
      .ok { lat := 37.7749, lon := -122.4194 } := by
  have h1 : parseGoFloat "37.7749" = some (37.7749 : ℚ) := by
    simp +decide [parseGoFloat, digitsToNat, isDigitCh]; norm_num
  have h2 : parseGoFloat "-122.4194" = some (-122.4194 : ℚ) := by
    simp +decide [parseGoFloat, digitsToNat, isDigitCh]; norm_num
  simp [geocodeAddress, h1, h2]

/-- C3 (amended): the geocode step fails on transport failure and on a
payload that is not decodable JSON; the HTTP status code is never
inspected, so the outcome is independent of the status and a non-2xx
response with a decodable body is processed normally. -/
theorem geocodeAddress_failure_spec :
    (∀ msg : String, geocodeAddress (.transportError msg) = .error msg) ∧
    (∀ st : ℕ, geocodeAddress (.response st .badJSON) = .error "decode failed" ∧
      geocodeAddress (.response st .badShape) = .error "decode failed") ∧
    (∀ (st st2 : ℕ) (body : BodyDecode (List NominatimResult)),
      geocodeAddress (.response st body) = geocodeAddress (.response st2 body)) := by
  refine ⟨fun _ => rfl, fun _ => ⟨rfl, rfl⟩, ?_⟩
  intro st st2 body
  cases body <;> rfl

/-- C10: whenever the schools response decodes, getNearbySchools succeeds;
an empty element list yields the empty school list and no error, and so
does a list whose every element is filtered out (missing name, no usable
coordinate, or invalid coordinates). -/
theorem getNearbySchools_spec :
    (∀ (coords : Coordinates) (st : ℕ) (r : OverpassResponse),
      ∃ schools, getNearbySchools coords (.response st (.decoded r)) = .ok schools) ∧
    (∀ (coords : Coordinates) (st : ℕ) (r : OverpassResponse), r.elements = [] →
      getNearbySchools coords (.response st (.decoded r)) = .ok []) ∧
    (∀ (coords : Coordinates) (st : ℕ) (r : OverpassResponse),
      (∀ e ∈ r.elements, e.tags.Name = "" ∨ resolveCoord e = none ∨
        ∀ p, resolveCoord e = some p → areValidCoordinates p.1 p.2 = false) →
      getNearbySchools coords (.response st (.decoded r)) = .ok []) := by
  have hcollect : ∀ (coords : Coordinates) (l : List OverpassElement),
      (∀ e ∈ l, e.tags.Name = "" ∨ resolveCoord e = none ∨
        ∀ p, resolveCoord e = some p → areValidCoordinates p.1 p.2 = false) →
      collectSchools coords l = [] := by
    intro coords l
    induction l with
    | nil => intro _; rfl
    | cons e rest ih =>
      intro h
      have he := h e (by simp)
      have hrest := ih (fun e2 he2 => h e2 (by simp [he2]))
      rw [collectSchools]
      rcases he with hname | hcoord | hinvalid
      · simp [hname, hrest]
      · by_cases hname : e.tags.Name = ""
        · simp [hname, hrest]
        · simp [hname, hcoord, hrest]
      · by_cases hname : e.tags.Name = ""
        · simp [hname, hrest]
        · cases hres : resolveCoord e with
          | none => simp [hname, hres, hrest]
          | some p =>
            have := hinvalid p hres
            obtain ⟨p1, p2⟩ := p
            simp [hname, hres, this, hrest]
  refine ⟨?_, ?_, ?_⟩
  · intro coords st r
    exact ⟨collectSchools coords r.elements, rfl⟩
  · intro coords st r h
    show Except.ok (collectSchools coords r.elements) = .ok []
    rw [h]
    rfl
  · intro coords st r h
    show Except.ok (collectSchools coords r.elements) = .ok []
    rw [hcollect coords r.elements h]

/-- C10 witness: the theorem applied to an empty response and to a response
whose only element lacks a name. -/
theorem getNearbySchools_spec_witness :
    getNearbySchools { lat := 1, lon := 2 } (.response 200 (.decoded {})) = .ok [] ∧
    getNearbySchools { lat := 1, lon := 2 }
      (.response 200 (.decoded { elements := [{ etype := "node" }] })) = .ok [] :=
  ⟨getNearbySchools_spec.2.1 { lat := 1, lon := 2 } 200 {} rfl,
   getNearbySchools_spec.2.2 { lat := 1, lon := 2 } 200
     { elements := [{ etype := "node" }] }
     (by intro e he
         rw [List.mem_singleton] at he
         subst he
         left
         rfl)⟩

/-- C7: every address that is empty or whitespace-only, or splits on commas
into fewer than 3 segments, or whose trimmed form does not match the
required number/street/city/state pattern, is rejected by ValidateAddress
before any network call. -/
theorem validateAddress_rejects (s : String)
    (h : (∀ c ∈ s.data, isGoSpace c = true) ∨
         (splitComma s.data).length < 3 ∨
         matchFrom addressPattern (trimSpace s.data) = false) :
    ∃ msg, ValidateAddress s = .error msg := by
  unfold ValidateAddress
  by_cases h1 : trimSpace s.data = []
  · exact ⟨_, by rw [if_pos h1]⟩
  · rw [if_neg h1]
    by_cases h2 : (splitComma s.data).length < 3
    · exact ⟨_, by rw [if_pos h2]⟩
    · rw [if_neg h2]
      have h3 : matchFrom addressPattern (trimSpace s.data) = false := by
        rcases h with hsp | hlt | hm
        · exact absurd (trimSpace_eq_nil s.data hsp) h1
        · exact absurd hlt h2
        · exact hm
      exact ⟨_, by rw [if_pos (by simp [h3])]⟩

/-- C7 witness: the theorem applied to an empty address, an address with
too few segments, and an address failing the pattern. -/
theorem validateAddress_rejects_witness :
    (∃ m, ValidateAddress "" = .error m) ∧
    (∃ m, ValidateAddress "123 Main St" = .error m) ∧
    (∃ m, ValidateAddress "Invalid, Address, Format" = .error m) :=
  ⟨validateAddress_rejects "" (.inl (by decide)),
   validateAddress_rejects "123 Main St" (.inr (.inl (by decide))),
   validateAddress_rejects "Invalid, Address, Format" (.inr (.inr (by decide)))⟩

/-- C5: calculateDistance implements the haversine great-circle distance
with Earth radius 6371.0 km rounded to 2 decimal places (it agrees with
the textbook arcsin form of the formula on all inputs), and on the worked
example calculateDistance(37.7749, -122.4194, 34.0522, -118.2437) returns
a value within 1 km of 559.12 km. -/
theorem calculateDistance_spec :
    (∀ lat1 lon1 lat2 lon2 : ℝ,
      calculateDistance lat1 lon1 lat2 lon2 = haversineSpec lat1 lon1 lat2 lon2) ∧
    |calculateDistance 37.7749 (-122.4194) 34.0522 (-118.2437) - 559.12| ≤ 1 :=
  ⟨calculateDistance_eq, worked_example_bound⟩

/-- C1 counterexample: an address with a valid number, street, city and
two-letter state but no postal code at all is rejected by ValidateAddress,
because the trailing question mark in the Go pattern only makes the
five-digit repetition non-greedy rather than optional. -/
theorem validateAddress_no_zip_rejected :
    ValidateAddress "123 Main St, Springfield, IL" =
      .error "invalid address format" := by decide

/-- C1 (amended): for every address string of the form
number, whitespace, street, comma, city, comma, two-letter state, then
optional whitespace and a MANDATORY five-digit zip code — with the
components drawn from the character classes of the validation pattern —
ValidateAddress returns success.  (The zip code cannot be omitted; see the
counterexample.) -/
theorem validateAddress_zip_required
    (nc : Char) (n : List Char) (wc : Char) (w1 : List Char)
    (sc : Char) (street : List Char) (w2 : List Char)
    (cc : Char) (city : List Char) (w3 : List Char)
    (u1 u2 : Char) (w4 : List Char) (d1 d2 d3 d4 d5 : Char)
    (hnc : isDigitCh nc = true) (hn : ∀ c ∈ n, isDigitCh c = true)
    (hwc : isRESpace wc = true) (hw1 : ∀ c ∈ w1, isRESpace c = true)
    (hsc : isStreetCh sc = true) (hstreet : ∀ c ∈ street, isStreetCh c = true)
    (hw2 : ∀ c ∈ w2, isRESpace c = true)
    (hcc : isCityCh cc = true) (hcity : ∀ c ∈ city, isCityCh c = true)
    (hw3 : ∀ c ∈ w3, isRESpace c = true)
    (hu1 : isUpperCh u1 = true) (hu2 : isUpperCh u2 = true)
    (hw4 : ∀ c ∈ w4, isRESpace c = true)
    (hd1 : isDigitCh d1 = true) (hd2 : isDigitCh d2 = true)
    (hd3 : isDigitCh d3 = true) (hd4 : isDigitCh d4 = true)
    (hd5 : isDigitCh d5 = true) :
    ValidateAddress ⟨nc :: (n ++ (wc :: (w1 ++ (sc :: (street ++ (',' ::
      (w2 ++ (cc :: (city ++ (',' :: (w3 ++ (u1 :: (u2 :: (w4 ++
      [d1, d2, d3, d4, d5]))))))))))))))⟩ = .ok () := by
  set L : List Char := nc :: (n ++ (wc :: (w1 ++ (sc :: (street ++ (',' ::
    (w2 ++ (cc :: (city ++ (',' :: (w3 ++ (u1 :: (u2 :: (w4 ++
    [d1, d2, d3, d4, d5])))))))))))))) with hL
  have hdata : (⟨L⟩ : String).data = L := rfl
  have hne : L ≠ [] := by simp [hL]
  have hlast : L.getLast? = some d5 := by
    rw [← List.head?_reverse]
    simp [hL]
  have htrim : trimSpace L = L := by
    apply trimSpace_eq_self
    · intro c hc
      rw [hL] at hc
      simp only [List.head?_cons, Option.some.injEq] at hc
      rw [← hc]
      exact isGoSpace_of_digit nc hnc
    · intro c hc
      rw [hlast] at hc
      simp only [Option.some.injEq] at hc
      rw [← hc]
      exact isGoSpace_of_digit d5 hd5
  have hstep1 : ∀ (x : Char) (l : List Char), l.count ',' ≤ (x :: l).count ',' := by
    intro x l
    simp only [List.count_cons]
    split_ifs <;> omega
  have hstep2 : ∀ (l1 l2 : List Char), l2.count ',' ≤ (l1 ++ l2).count ',' := by
    intro l1 l2
    simp only [List.count_append]
    omega
  have hcomma : ∀ l : List Char, (',' :: l).count ',' = l.count ',' + 1 := by
    intro l
    simp [List.count_cons]
  have hcount : ¬ (splitComma L).length < 3 := by
    rw [splitComma_length]
    have hy1 : 1 ≤ (',' :: (w3 ++ (u1 :: (u2 :: (w4 ++
        [d1, d2, d3, d4, d5]))))).count ',' := by
      rw [hcomma]; omega
    have hy2 := le_trans hy1 (hstep2 city _)
    have hy3 := le_trans hy2 (hstep1 cc _)
    have hy4 := le_trans hy3 (hstep2 w2 _)
    have hz1 : 2 ≤ (',' :: (w2 ++ (cc :: (city ++ (',' :: (w3 ++ (u1 :: (u2 ::
        (w4 ++ [d1, d2, d3, d4, d5]))))))))).count ',' := by
      rw [hcomma]; omega
    have hz2 := le_trans hz1 (hstep2 street _)
    have hz3 := le_trans hz2 (hstep1 sc _)
    have hz4 := le_trans hz3 (hstep2 w1 _)
    have hz5 := le_trans hz4 (hstep1 wc _)
    have hz6 := le_trans hz5 (hstep2 n _)
    have h2 : 2 ≤ L.count ',' := by
      rw [hL]
      exact le_trans hz6 (hstep1 nc _)
    omega
  have hmatch : matchFrom addressPattern L = true := by
    rw [hL]
    simp only [addressPattern, plusA, onceA, starA, List.cons_append,
      List.nil_append, List.append_assoc]
    apply matchFrom_plus _ _ _ _ _ hnc hn
    apply matchFrom_plus _ _ _ _ _ hwc hw1
    apply matchFrom_plus _ _ _ _ _ hsc hstreet
    apply matchFrom_once _ _ _ _ (by decide)
    apply matchFrom_star _ _ _ _ hw2
    apply matchFrom_plus _ _ _ _ _ hcc hcity
    apply matchFrom_once _ _ _ _ (by decide)
    apply matchFrom_star _ _ _ _ hw3
    apply matchFrom_once _ _ _ _ hu1
    apply matchFrom_once _ _ _ _ hu2
    apply matchFrom_star _ _ _ _ hw4
    apply matchFrom_once _ _ _ _ hd1
    apply matchFrom_once _ _ _ _ hd2
    apply matchFrom_once _ _ _ _ hd3
    apply matchFrom_once _ _ _ _ hd4
    apply matchFrom_once _ _ _ _ hd5
    decide
  unfold ValidateAddress
  rw [hdata, if_neg (by rw [htrim]; exact hne), if_neg hcount,
    if_neg (by rw [htrim, hmatch]; decide)]

/-- C1 witness: the amended theorem applied to the concrete address
123 Main St, Springfield, IL 62701. -/
theorem validateAddress_zip_required_witness :
    ValidateAddress "123 Main St, Springfield, IL 62701" = .ok () :=
  validateAddress_zip_required
    '1' ['2', '3'] ' ' [] 'M' ['a', 'i', 'n', ' ', 'S', 't'] [' ']
    'S' ['p', 'r', 'i', 'n', 'g', 'f', 'i', 'e', 'l', 'd'] [' ']
    'I' 'L' [' '] '6' '2' '7' '0' '1'
    (by decide) (by decide) (by decide) (by decide) (by decide) (by decide)
    (by decide) (by decide) (by decide) (by decide) (by decide) (by decide)
    (by decide) (by decide) (by decide) (by decide) (by decide) (by decide)

end PropertyDetails
